import Mathlib

/-!
Shallow embedding of the shell_gpt command-line front end, source file
sgpt/app.py, function main.  The embedding models one invocation of
main as a pure function from the parsed CLI arguments, the terminal
state, the oracle results of the external collaborators (completion
service, editor) and the sequence of interactive choices, to the list
of observable effects performed and the final exit outcome.

Modelling notes, stated once here:
- Python strings that may be None are Option String; the Python truth
  test `not s` on such a value is pyNot (true for None and for the
  empty string), and `s or ""` is pyOrEmpty.
- The REPL branch of main calls ReplHandler.handle, which loops until
  a keyboard interrupt terminates the process, so the statements after
  it never run; the embedding ends the invocation at that branch.
- typer.prompt with a click Choice re-prompts until the answer is one
  of the listed choices, and an empty answer selects the default; the
  embedding takes the sequence of validated answers as input, with
  none standing for an empty answer (default taken).
- The interactive while loop consumes one validated answer per
  iteration; the embedding runs it over a finite list of answers and
  stops when the list is exhausted.
-/

/-- Parsed CLI arguments of sgpt/app.py main, plus the terminal state
(whether stdin is a TTY) and the text waiting on a piped stdin. -/
structure Args where
  prompt : Option String
  shell : Bool
  describe_shell : Bool
  code : Bool
  editor : Bool
  repl : Bool
  print_chat : Bool
  delete_chat : Bool
  chat_id : String
  role : Option String
  stdinTTY : Bool
  stdinText : String
deriving DecidableEq, Repr

/-- Oracle results of the external collaborators consumed by main:
the completion returned by ChatHandler.handle, the text returned by
get_edited_prompt, the validated answer to the code-mode prompt and
the validated answers to the successive shell-mode prompts. -/
structure Inputs where
  completion : String
  editorText : String
  codeOpt : Option String
  shellOpts : List (Option String)
deriving DecidableEq, Repr

/-- The configuration read by main: cfg.get of DEFAULT_EXECUTE_SHELL_CMD
compared against the string true. -/
structure Cfg where
  defaultExecute : Bool
deriving DecidableEq, Repr

/-- The built-in role variants of DefaultRoles (sgpt/role.py). -/
inductive DefaultRoles where
  | DEFAULT
  | SHELL
  | DESCRIBE_SHELL
  | CODE
deriving DecidableEq, Repr

/-- A resolved role: either a built-in variant derived from the mode
flags or a stored role looked up by name. -/
inductive RoleRef where
  | builtin (r : DefaultRoles)
  | named (name : String)
deriving DecidableEq, Repr

/-- Observable effects of one invocation, in program order. -/
inductive Event where
  | readStdin (text : String)
  | openEditor
  | resolveFlags (shell describe_shell code : Bool)
  | resolveName (name : String)
  | replHandle (chat_id : String) (prompt : Option String)
  | showMessages (chat_id : String)
  | deleteChatMsgs (chat_id : String)
  | chatHandle (chat_id : String) (prompt : String)
  | promptChoice (choices : List String)
  | runCommand (text : String)
  | copyToClipboard (text : String)
  | echo (text : String)
  | describeHandle (role : DefaultRoles) (prompt : String)
deriving DecidableEq, Repr

/-- Final outcome of the invocation.  click maps BadArgumentUsage and
MissingParameter to a usage error that exits with a non-zero code;
normal completion and the explicit exit calls exit with zero. -/
inductive Outcome where
  | badArgumentUsage (msg : String)
  | missingParameter (hint : String)
  | exitOk
deriving DecidableEq, Repr

/-- Whether the outcome is a usage error (non-zero exit). -/
def Outcome.isUsageError : Outcome → Bool
  | .badArgumentUsage _ => true
  | .missingParameter _ => true
  | .exitOk => false

/-- Process exit code of the outcome: click exits with code 2 on a
usage error, 0 on normal completion. -/
def Outcome.exitCode : Outcome → Nat
  | .badArgumentUsage _ => 2
  | .missingParameter _ => 2
  | .exitOk => 0

/-- Python truth test `not s` for an optional string: true for None
and for the empty string. -/
def pyNot : Option String → Bool
  | none => true
  | some s => s == ""

/-- Python `s or ""` for an optional string. -/
def pyOrEmpty : Option String → String
  | none => ""
  | some s => s

/-- Events that call the remote completion service. -/
def Event.isRemoteCall : Event → Bool
  | .chatHandle _ _ => true
  | .replHandle _ _ => true
  | .describeHandle _ _ => true
  | _ => false

/-- Events that mutate the persisted session store. -/
def Event.isPersistMutation : Event → Bool
  | .chatHandle _ _ => true
  | .replHandle _ _ => true
  | .deleteChatMsgs _ => true
  | _ => false

/-- Events that perform role resolution. -/
def Event.isRoleResolution : Event → Bool
  | .resolveFlags _ _ _ => true
  | .resolveName _ => true
  | _ => false

/-- Events that show an interactive action prompt. -/
def Event.isInteractivePrompt : Event → Bool
  | .promptChoice _ => true
  | _ => false

/-- Events that execute a shell command. -/
def Event.isRunCommand : Event → Bool
  | .runCommand _ => true
  | _ => false

/-- Modelled from the spec: DefaultRoles.check_get of sgpt/role.py is
not under src/; section 4.2 of the design says the role is derived
from the flags, with the default assistant role when none is set. -/
def DefaultRoles.check_get (shell describe_shell code : Bool) : DefaultRoles :=
  if shell then .SHELL
  else if describe_shell then .DESCRIBE_SHELL
  else if code then .CODE
  else .DEFAULT

/-- app.py lines 162 to 166: role_class is the flag-derived built-in
when the role option is falsy (None or empty), otherwise the stored
role looked up by the given name. -/
def role_class (shell describe_shell code : Bool) (role : Option String) : RoleRef :=
  if pyNot role then .builtin (DefaultRoles.check_get shell describe_shell code)
  else .named (pyOrEmpty role)

/-- The role-resolution event recorded for the invocation. -/
def roleEvent (a : Args) : Event :=
  match role_class a.shell a.describe_shell a.code a.role with
  | .builtin _ => .resolveFlags a.shell a.describe_shell a.code
  | .named n => .resolveName n

/-- app.py line 145: stdin was passed iff stdin is not a TTY. -/
def stdin_passed (a : Args) : Bool := !a.stdinTTY

/-- app.py lines 147 to 148: when stdin is piped and REPL mode is off,
the prompt becomes the piped text, two newline characters, then the
CLI prompt argument or the empty string. -/
def foldStdin (sp repl : Bool) (stdinText : String) (prompt : Option String) :
    Option String :=
  if sp && !repl then some (stdinText ++ "\n\n" ++ pyOrEmpty prompt) else prompt

/-- app.py line 153 message of the conflicting-modes usage error. -/
def conflictMsg : String :=
  "Only one of --shell, --describe-shell, and --code options can be used at a time."

/-- app.py line 157 message of the editor-with-stdin usage error. -/
def editorStdinMsg : String := "--editor option cannot be used with stdin input."

/-- The choice set of the shell-mode action prompt, app.py line 215. -/
def shellChoices : List String := ["e", "d", "a", "y", "c"]

/-- The choice set of the code-mode action prompt, app.py line 203. -/
def codeChoices : List String := ["c", "a"]

/-- Default answer of the shell-mode prompt, app.py line 216: execute
when DEFAULT_EXECUTE_SHELL_CMD is the string true, otherwise abort. -/
def shellDefault (cfg : Cfg) : String := if cfg.defaultExecute then "e" else "a"

/-- An empty interactive answer selects the default choice. -/
def resolveOpt (dflt : String) (inp : Option String) : String := inp.getD dflt

/-- One iteration of the shell-mode action loop, app.py lines 220 to
235: effects of the chosen option, and whether the loop continues.
Options e and y run the command; option c copies and then reaches the
final break; option d describes with a one-shot completion and
continues; option a reaches the break with no effect. -/
def shellStep (completion : String) (opt : String) : List Event × Bool :=
  let execEvs := if opt == "e" || opt == "y" then [Event.runCommand completion] else []
  if opt == "c" then
    (execEvs ++ [Event.copyToClipboard completion, Event.echo "Command copied to clipboard!"],
      false)
  else if opt == "d" then
    (execEvs ++ [Event.describeHandle .DESCRIBE_SHELL completion], true)
  else (execEvs, false)

/-- The shell-mode action loop over a finite list of validated
answers, app.py lines 212 to 235: each iteration shows the prompt,
resolves the answer against the configured default, performs the
effects of the step, and recurses exactly when the step continues. -/
def shellMachine (cfg : Cfg) (completion : String) :
    List (Option String) → List Event
  | [] => []
  | inp :: rest =>
      let opt := resolveOpt (shellDefault cfg) inp
      Event.promptChoice shellChoices ::
        ((shellStep completion opt).1 ++
          (if (shellStep completion opt).2 then shellMachine cfg completion rest
           else []))

/-- Effects of the chosen option in the code-mode prompt, app.py lines
208 to 210: option c copies to the clipboard and echoes, any other
accepted option does nothing. -/
def codeStep (completion : String) (opt : String) : List Event :=
  if opt == "c" then
    [Event.copyToClipboard completion, Event.echo "Command copied to clipboard!"]
  else []

/-- The code-mode action prompt, app.py lines 200 to 210: one prompt
with choices c and a, default a, then the effects of the answer. -/
def codeMachine (completion : String) (inp : Option String) : List Event :=
  let opt := resolveOpt "a" inp
  Event.promptChoice codeChoices :: codeStep completion opt

/-- app.py lines 200 to 235: the post-completion part of main.  The
code-mode prompt runs whenever the code flag is set; the shell-mode
loop runs only while the shell flag is set and stdin was not piped. -/
def afterCompletion (a : Args) (inp : Inputs) (cfg : Cfg) (evs : List Event) :
    List Event × Outcome :=
  let evs := evs ++ (if a.code then codeMachine inp.completion inp.codeOpt else [])
  let evs := evs ++
    (if a.shell && !stdin_passed a then shellMachine cfg inp.completion inp.shellOpts
     else [])
  (evs, .exitOk)

/-- The stdin-read effect of app.py lines 147 to 148: present exactly
when stdin is piped and REPL mode is off. -/
def readEvs (a : Args) : List Event :=
  if stdin_passed a && !a.repl then [Event.readStdin a.stdinText] else []

/-- The editor effect of app.py lines 159 to 160. -/
def editEvs (a : Args) : List Event :=
  if a.editor then [Event.openEditor] else []

/-- The effects recorded before the handler branches of main: the
stdin read, the editor opening, then role resolution. -/
def preEvs (a : Args) : List Event :=
  readEvs a ++ editEvs a ++ [roleEvent a]

/-- The prompt value after stdin folding (app.py line 148) and the
editor override (app.py line 160). -/
def prompt1 (a : Args) (inp : Inputs) : Option String :=
  if a.editor then some inp.editorText
  else foldStdin (stdin_passed a) a.repl a.stdinText a.prompt

/-- The body of sgpt/app.py main, lines 145 to 235, as a pure function
from the arguments, oracles and configuration to the list of effects
in program order and the final outcome. -/
def sgptMain (a : Args) (inp : Inputs) (cfg : Cfg) : List Event × Outcome :=
  if a.shell.toNat + a.describe_shell.toNat + a.code.toNat > 1 then
    (readEvs a, .badArgumentUsage conflictMsg)
  else if a.editor && stdin_passed a then
    (readEvs a, .badArgumentUsage editorStdinMsg)
  else if a.repl then
    (preEvs a ++ [Event.replHandle a.chat_id (prompt1 a inp)], .exitOk)
  else if a.print_chat then
    (preEvs a ++ [Event.showMessages a.chat_id], .exitOk)
  else if a.delete_chat then
    (preEvs a ++ [Event.deleteChatMsgs a.chat_id], .exitOk)
  else if a.chat_id ≠ "" then
    if pyNot (some (pyOrEmpty (prompt1 a inp))) then
      (preEvs a, .missingParameter "PROMPT")
    else
      afterCompletion a inp cfg
        (preEvs a ++ [Event.chatHandle a.chat_id (pyOrEmpty (prompt1 a inp))])
  else
    afterCompletion a inp cfg (preEvs a)

/-- A message of the persisted session store. -/
structure Message where
  role : String
  content : String
deriving DecidableEq, Repr

/-- The persisted session store, one ordered message list per
conversation id; absent conversations read as the empty list. -/
def Store := String → List Message

/-- Read the full transcript of a conversation. -/
def Store.read (st : Store) (id : String) : List Message := st id

/-- Delete a conversation; idempotent, absent ids stay empty. -/
def Store.delete (st : Store) (id : String) : Store :=
  fun j => if j = id then [] else st j

/-- Append a message to a conversation. -/
def Store.append (st : Store) (id : String) (m : Message) : Store :=
  fun j => if j = id then st j ++ [m] else st j

/-- Modelled from the spec: the session-store side of ChatHandler
(sgpt/handlers/chat_handler.py) is not under src/.  Section 4.3 of the
design: reading the temp conversation at the start of a non-REPL,
non-print, non-delete invocation implicitly triggers a delete of temp
before any new append. -/
def invocationStart (repl print_chat delete_chat : Bool) (chat_id : String)
    (st : Store) : Store :=
  if chat_id = "temp" && !repl && !print_chat && !delete_chat then st.delete "temp"
  else st

/-! Helper lemmas about the event classifiers and the machines. -/

/-- An event that is not an interactive prompt differs from every
promptChoice event. -/
theorem ne_promptChoice_of_not_prompt {e : Event}
    (h : e.isInteractivePrompt = false) (l : List String) :
    e ≠ Event.promptChoice l := by
  intro hEq
  subst hEq
  simp [Event.isInteractivePrompt] at h

/-- The role-resolution event is one of the two resolve constructors. -/
theorem roleEvent_cases (a : Args) :
    roleEvent a = Event.resolveFlags a.shell a.describe_shell a.code ∨
      ∃ n, roleEvent a = Event.resolveName n := by
  unfold roleEvent
  split
  · exact Or.inl rfl
  · exact Or.inr ⟨_, rfl⟩

/-- Every event of the code-mode prompt is the prompt itself, the
clipboard copy or the echo. -/
theorem codeMachine_events (completion : String) (inp : Option String) (e : Event)
    (he : e ∈ codeMachine completion inp) :
    e = Event.promptChoice codeChoices ∨ e = Event.copyToClipboard completion ∨
      e = Event.echo "Command copied to clipboard!" := by
  simp only [codeMachine, codeStep] at he
  split at he <;> simp at he <;> tauto

/-- Every effect of one shell-loop step is a command run, a clipboard
copy, the echo, or a describe sub-completion. -/
theorem shellStep_events (completion opt : String) (e : Event)
    (he : e ∈ (shellStep completion opt).1) :
    e = Event.runCommand completion ∨ e = Event.copyToClipboard completion ∨
      e = Event.echo "Command copied to clipboard!" ∨
      e = Event.describeHandle .DESCRIBE_SHELL completion := by
  simp only [shellStep] at he
  split at he <;> split at he <;> simp at he <;> tauto

/-- Every event of the shell-mode loop is the prompt, a command run, a
clipboard copy, the echo, or a describe sub-completion. -/
theorem shellMachine_events (cfg : Cfg) (completion : String)
    (opts : List (Option String)) (e : Event)
    (he : e ∈ shellMachine cfg completion opts) :
    e = Event.promptChoice shellChoices ∨ e = Event.runCommand completion ∨
      e = Event.copyToClipboard completion ∨
      e = Event.echo "Command copied to clipboard!" ∨
      e = Event.describeHandle .DESCRIBE_SHELL completion := by
  induction opts with
  | nil => simp [shellMachine] at he
  | cons o rest ih =>
      simp only [shellMachine] at he
      rcases List.mem_cons.mp he with h | h
      · exact Or.inl h
      · rcases List.mem_append.mp h with h | h
        · have := shellStep_events completion (resolveOpt (shellDefault cfg) o) e h
          tauto
        · split at h
          · exact ih h
          · simp at h

/-! Claim theorems. -/

/-- C4 counterexample: with the shell flag set and the explicit role
being the empty string, main resolves the flag-derived shell built-in,
not the named empty role — supplying an explicit role name does not
always override the flags. -/
theorem C4_counterexample :
    role_class true false false (some "") = RoleRef.builtin DefaultRoles.SHELL ∧
    role_class true false false (some "") ≠ RoleRef.named "" := by
  constructor
  · rfl
  · decide

/-- C4 (amended): a non-empty explicit role name resolves to the named
role, overriding the mode flags; with no explicit role the role is
derived from the flags, and with no flag set it is the default
assistant role. -/
theorem C4_role_override (s d c : Bool) (name : String) (h : name ≠ "") :
    role_class s d c (some name) = RoleRef.named name ∧
    role_class s d c none = RoleRef.builtin (DefaultRoles.check_get s d c) ∧
    DefaultRoles.check_get false false false = DefaultRoles.DEFAULT := by
  refine ⟨?_, rfl, rfl⟩
  simp [role_class, pyNot, pyOrEmpty, h]

/-- C4 witness: instantiated at the role name custom-role with the
shell flag set. -/
theorem C4_role_override_witness :
    role_class true false false (some "custom-role") = RoleRef.named "custom-role" :=
  (C4_role_override true false false "custom-role" (by decide)).1

/-- C5: in the shell-mode action machine, Describe runs a one-shot
completion with the describe-shell role on the just-produced command
text and loops back to the prompt with the same pending completion,
and Describe is the only choice whose step continues the loop:
Execute (e and the legacy y), Copy and Abort all terminate it. -/
theorem C5_describe_loops (cfg : Cfg) (completion : String)
    (rest : List (Option String)) :
    shellMachine cfg completion (some "d" :: rest) =
      Event.promptChoice shellChoices ::
        Event.describeHandle DefaultRoles.DESCRIBE_SHELL completion ::
          shellMachine cfg completion rest ∧
    (shellStep completion "d").2 = true ∧
    (shellStep completion "e").2 = false ∧
    (shellStep completion "y").2 = false ∧
    (shellStep completion "c").2 = false ∧
    (shellStep completion "a").2 = false :=
  ⟨rfl, rfl, rfl, rfl, rfl, rfl⟩

/-- C6 counterexample: after choosing Copy the shell-mode machine
terminates — the second supplied answer is never consumed and no
second prompt is shown, refuting that Copy returns to the prompt. -/
theorem C6_counterexample :
    shellMachine { defaultExecute := false } "ls -la" [some "c", some "d"] =
      [Event.promptChoice shellChoices, Event.copyToClipboard "ls -la",
        Event.echo "Command copied to clipboard!"] ∧
    (shellStep "ls -la" "c").2 = false :=
  ⟨rfl, rfl⟩

/-- C6 (amended): choosing Copy places the completion on the clipboard
and then terminates the shell-mode machine, like Execute and Abort;
only Describe returns control to the prompt. -/
theorem C6_copy_terminates (cfg : Cfg) (completion : String)
    (rest : List (Option String)) :
    shellStep completion "c" =
      ([Event.copyToClipboard completion, Event.echo "Command copied to clipboard!"],
        false) ∧
    shellMachine cfg completion (some "c" :: rest) =
      [Event.promptChoice shellChoices, Event.copyToClipboard completion,
        Event.echo "Command copied to clipboard!"] :=
  ⟨rfl, rfl⟩

/-- C7: the code-mode controller offers exactly the choices c and a;
Copy places the completion text on the clipboard, Abort has no further
effect, and e (Execute) and d (Describe) are not accepted inputs. -/
theorem C7_code_actions (completion : String) :
    codeChoices = ["c", "a"] ∧
    codeMachine completion (some "c") =
      [Event.promptChoice codeChoices, Event.copyToClipboard completion,
        Event.echo "Command copied to clipboard!"] ∧
    codeMachine completion (some "a") = [Event.promptChoice codeChoices] ∧
    "e" ∉ codeChoices ∧ "d" ∉ codeChoices := by
  refine ⟨rfl, rfl, rfl, by decide, by decide⟩

/-- C8: at the start of a non-REPL, non-print, non-delete invocation
on the reserved conversation id temp, any messages a previous
invocation left in temp are deleted before the new exchange, so
reading temp just before the new user message yields no messages. -/
theorem C8_temp_reset (repl print_chat delete_chat : Bool) (st : Store)
    (h1 : repl = false) (h2 : print_chat = false) (h3 : delete_chat = false) :
    Store.read (invocationStart repl print_chat delete_chat "temp" st) "temp" = [] := by
  subst h1
  subst h2
  subst h3
  simp [invocationStart, Store.read, Store.delete]

/-- C8 witness: a stale message left in temp by a previous invocation
is gone at the start of the next default invocation. -/
theorem C8_temp_reset_witness :
    Store.read
      (invocationStart false false false "temp"
        (fun _ => [{ role := "user", content := "stale" }])) "temp" = [] :=
  C8_temp_reset false false false _ rfl rfl rfl

/-- C2: when more than one of the shell, describe-shell and code flags
is set, main fails with the conflicting-modes usage error and its
trace contains no remote call and no persistence mutation. -/
theorem C2_conflicting_modes (a : Args) (inp : Inputs) (cfg : Cfg)
    (h : a.shell.toNat + a.describe_shell.toNat + a.code.toNat > 1) :
    (sgptMain a inp cfg).2 = Outcome.badArgumentUsage conflictMsg ∧
    ∀ e ∈ (sgptMain a inp cfg).1,
      e.isRemoteCall = false ∧ e.isPersistMutation = false := by
  simp only [sgptMain]
  rw [if_pos h]
  refine ⟨rfl, ?_⟩
  intro e he
  simp only [readEvs] at he
  split at he <;> simp at he
  subst he
  exact ⟨rfl, rfl⟩

/-- C2 witness: shell and code both set fails with the conflicting
modes message. -/
theorem C2_conflicting_modes_witness :
    (sgptMain
      { prompt := some "p", shell := true, describe_shell := false, code := true,
        editor := false, repl := false, print_chat := false, delete_chat := false,
        chat_id := "temp", role := none, stdinTTY := true, stdinText := "" }
      { completion := "", editorText := "", codeOpt := none, shellOpts := [] }
      { defaultExecute := false }).2 = Outcome.badArgumentUsage conflictMsg :=
  (C2_conflicting_modes _ _ _ (by decide)).1

/-- Every event main records before a usage error is raised — the
stdin read, the editor opening and the role resolution — is neither a
remote call, nor a persistence mutation, nor a command run, nor an
interactive prompt. -/
theorem preEvs_benign (a : Args) (e : Event) (he : e ∈ preEvs a) :
    e.isRemoteCall = false ∧ e.isPersistMutation = false ∧
      e.isRunCommand = false ∧ e.isInteractivePrompt = false := by
  simp only [preEvs] at he
  rcases List.mem_append.mp he with h | h
  · rcases List.mem_append.mp h with h2 | h2
    · simp only [readEvs] at h2
      split at h2 <;> simp at h2
      subst h2
      exact ⟨rfl, rfl, rfl, rfl⟩
    · simp only [editEvs] at h2
      split at h2 <;> simp at h2
      subst h2
      exact ⟨rfl, rfl, rfl, rfl⟩
  · simp at h
    subst h
    rcases roleEvent_cases a with hh | ⟨n, hh⟩ <;> rw [hh] <;> exact ⟨rfl, rfl, rfl, rfl⟩

/-- Membership in the stdin-read effect list implies membership in the
pre-branch effect list. -/
theorem readEvs_subset_preEvs (a : Args) (e : Event) (he : e ∈ readEvs a) :
    e ∈ preEvs a := by
  simp only [preEvs]
  exact List.mem_append.mpr (Or.inl (List.mem_append.mpr (Or.inl he)))

/-- A bad-argument usage outcome exits with a non-zero code. -/
theorem badArg_exit_nonzero (m : String) :
    (Outcome.badArgumentUsage m).exitCode ≠ 0 := by
  simp [Outcome.exitCode]

/-- A missing-parameter usage outcome exits with a non-zero code. -/
theorem missing_exit_nonzero (hint : String) :
    (Outcome.missingParameter hint).exitCode ≠ 0 := by
  simp [Outcome.exitCode]

/-- The arguments of the C3 counterexample: an explicit role, no
prompt, no piped stdin, every other option at its default. -/
def c3Args : Args :=
  { prompt := none, shell := false, describe_shell := false, code := false,
    editor := false, repl := false, print_chat := false, delete_chat := false,
    chat_id := "temp", role := some "custom", stdinTTY := true, stdinText := "" }

/-- C3 counterexample: with an explicit role and a missing prompt, the
missing-prompt usage error is raised, yet role resolution has already
run — validation is not detected before all role resolution. -/
theorem C3_counterexample :
    (sgptMain c3Args
      { completion := "", editorText := "", codeOpt := none, shellOpts := [] }
      { defaultExecute := false }).2 = Outcome.missingParameter "PROMPT" ∧
    Event.resolveName "custom" ∈
      (sgptMain c3Args
        { completion := "", editorText := "", codeOpt := none, shellOpts := [] }
        { defaultExecute := false }).1 := by
  constructor
  · rfl
  · decide

/-- Membership in the stdin-read effect list forces the stdin-read
event. -/
theorem readEvs_cases (a : Args) (e : Event) (he : e ∈ readEvs a) :
    e = Event.readStdin a.stdinText := by
  simp only [readEvs] at he
  split at he <;> simp at he
  exact he

/-- C3 (amended): conflicting mode flags or a missing required prompt
exit non-zero with a usage error before any remote call or persistence
mutation; the conflicting-modes check precedes role resolution — a
bad-argument usage outcome carries no role-resolution event in its
trace — while the missing-prompt check runs after role resolution but
still before any remote call or persistence mutation. -/
theorem C3_fail_fast (a : Args) (inp : Inputs) (cfg : Cfg)
    (h : ((sgptMain a inp cfg).2).isUsageError = true) :
    ((sgptMain a inp cfg).2).exitCode ≠ 0 ∧
    (∀ e ∈ (sgptMain a inp cfg).1,
      e.isRemoteCall = false ∧ e.isPersistMutation = false) ∧
    (∀ m, (sgptMain a inp cfg).2 = Outcome.badArgumentUsage m →
      ∀ e ∈ (sgptMain a inp cfg).1, e.isRoleResolution = false) := by
  have hread : ∀ e ∈ readEvs a, e.isRemoteCall = false ∧ e.isPersistMutation = false :=
    fun e he => ⟨(preEvs_benign a e (readEvs_subset_preEvs a e he)).1,
      (preEvs_benign a e (readEvs_subset_preEvs a e he)).2.1⟩
  have hreadRole : ∀ e ∈ readEvs a, e.isRoleResolution = false := by
    intro e he
    have h2 := readEvs_cases a e he
    subst h2
    rfl
  have hpre : ∀ e ∈ preEvs a, e.isRemoteCall = false ∧ e.isPersistMutation = false :=
    fun e he => ⟨(preEvs_benign a e he).1, (preEvs_benign a e he).2.1⟩
  simp only [sgptMain] at h ⊢
  split_ifs at h ⊢
  · exact ⟨badArg_exit_nonzero _, hread, fun m _ => hreadRole⟩
  · exact ⟨badArg_exit_nonzero _, hread, fun m _ => hreadRole⟩
  · simp [Outcome.isUsageError] at h
  · simp [Outcome.isUsageError] at h
  · simp [Outcome.isUsageError] at h
  · exact ⟨missing_exit_nonzero _, hpre, fun m hm => nomatch hm⟩
  · simp [afterCompletion, Outcome.isUsageError] at h
  · simp [afterCompletion, Outcome.isUsageError] at h

/-- C3 witness: the conflicting-modes error exits non-zero. -/
theorem C3_fail_fast_witness :
    ((sgptMain
      { prompt := some "p", shell := true, describe_shell := true, code := false,
        editor := false, repl := false, print_chat := false, delete_chat := false,
        chat_id := "temp", role := none, stdinTTY := true, stdinText := "" }
      { completion := "", editorText := "", codeOpt := none, shellOpts := [] }
      { defaultExecute := false }).2).exitCode ≠ 0 :=
  (C3_fail_fast _ _ _ (by decide)).1

/-- The two prompt events of the two machines differ: the choice lists
differ. -/
theorem codePrompt_ne_shellPrompt :
    Event.promptChoice codeChoices ≠ Event.promptChoice shellChoices := by
  decide

/-- A remote-call event never occurs among the pre-branch effects. -/
theorem remote_not_in_preEvs (a : Args) (e : Event) (hmem : e ∈ preEvs a)
    (hrc : e.isRemoteCall = true) : False :=
  Bool.noConfusion (hrc.symm.trans (preEvs_benign a e hmem).1)

/-- A remote-call event never occurs among the code-mode prompt
effects. -/
theorem remote_not_in_codeMachine (completion : String) (o : Option String)
    (e : Event) (hmem : e ∈ codeMachine completion o) (hrc : e.isRemoteCall = true) :
    False := by
  rcases codeMachine_events _ _ _ hmem with h | h | h <;> subst h <;>
    simp [Event.isRemoteCall] at hrc

/-- With piped stdin, the post-completion effects consist of the
already-recorded effects plus, at most, the code-mode prompt effects:
the shell-mode loop contributes nothing. -/
theorem afterCompletion_pipe_events (a : Args) (inp : Inputs) (cfg : Cfg)
    (evs : List Event) (hs : stdin_passed a = true) (e : Event)
    (he : e ∈ (afterCompletion a inp cfg evs).1) :
    e ∈ evs ∨ e ∈ codeMachine inp.completion inp.codeOpt := by
  simp only [afterCompletion] at he
  rw [hs] at he
  rcases List.mem_append.mp he with h | h
  · rcases List.mem_append.mp h with h2 | h2
    · exact Or.inl h2
    · split at h2
      · exact Or.inr h2
      · simp at h2
  · simp at h

/-- The arguments of the C1 counterexample: the code flag set and
stdin supplied via a non-interactive pipe. -/
def c1Args : Args :=
  { prompt := none, shell := false, describe_shell := false, code := true,
    editor := false, repl := false, print_chat := false, delete_chat := false,
    chat_id := "temp", role := none, stdinTTY := false, stdinText := "print hello" }

/-- C1 counterexample: with piped stdin and the code flag, the
code-mode interactive prompt still appears in the trace — the
post-completion action machine is not skipped for the code-only
shape. -/
theorem C1_counterexample :
    stdin_passed c1Args = true ∧
    Event.promptChoice codeChoices ∈
      (sgptMain c1Args
        { completion := "x = 1", editorText := "", codeOpt := some "a",
          shellOpts := [] }
        { defaultExecute := false }).1 := by
  constructor
  · rfl
  · decide

/-- C1 (amended): with piped stdin the shell-mode action machine is
skipped entirely — no shell-mode prompt is shown and no generated
command is ever executed, not even under the execute-without-asking
configuration — while the code-mode copy/abort prompt still runs when
the code flag is set. -/
theorem C1_pipe_skips_shell_machine (a : Args) (inp : Inputs) (cfg : Cfg)
    (hs : stdin_passed a = true) :
    ∀ e ∈ (sgptMain a inp cfg).1,
      e.isRunCommand = false ∧ e ≠ Event.promptChoice shellChoices := by
  have hpre : ∀ e2 ∈ preEvs a,
      e2.isRunCommand = false ∧ e2 ≠ Event.promptChoice shellChoices :=
    fun e2 h2 => ⟨(preEvs_benign a e2 h2).2.2.1,
      ne_promptChoice_of_not_prompt (preEvs_benign a e2 h2).2.2.2 _⟩
  have hcode : ∀ e2 ∈ codeMachine inp.completion inp.codeOpt,
      e2.isRunCommand = false ∧ e2 ≠ Event.promptChoice shellChoices := by
    intro e2 h2
    rcases codeMachine_events _ _ _ h2 with h3 | h3 | h3 <;> subst h3
    · exact ⟨rfl, codePrompt_ne_shellPrompt⟩
    · exact ⟨rfl, fun hq => Event.noConfusion hq⟩
    · exact ⟨rfl, fun hq => Event.noConfusion hq⟩
  intro e he
  simp only [sgptMain] at he
  split_ifs at he
  · exact hpre e (readEvs_subset_preEvs a e he)
  · exact hpre e (readEvs_subset_preEvs a e he)
  · rcases List.mem_append.mp he with h | h
    · exact hpre e h
    · simp at h
      subst h
      exact ⟨rfl, fun hq => Event.noConfusion hq⟩
  · rcases List.mem_append.mp he with h | h
    · exact hpre e h
    · simp at h
      subst h
      exact ⟨rfl, fun hq => Event.noConfusion hq⟩
  · rcases List.mem_append.mp he with h | h
    · exact hpre e h
    · simp at h
      subst h
      exact ⟨rfl, fun hq => Event.noConfusion hq⟩
  · exact hpre e he
  · rcases afterCompletion_pipe_events a inp cfg _ hs e he with h | h
    · rcases List.mem_append.mp h with h2 | h2
      · exact hpre e h2
      · simp at h2
        subst h2
        exact ⟨rfl, fun hq => Event.noConfusion hq⟩
    · exact hcode e h
  · rcases afterCompletion_pipe_events a inp cfg _ hs e he with h | h
    · exact hpre e h
    · exact hcode e h

/-- The arguments of the C1 witness: shell mode with piped stdin and
the execute-without-asking configuration enabled. -/
def c1wArgs : Args :=
  { prompt := none, shell := true, describe_shell := false, code := false,
    editor := false, repl := false, print_chat := false, delete_chat := false,
    chat_id := "temp", role := none, stdinTTY := false, stdinText := "list files" }

/-- C1 witness: in a shell-mode invocation fed by a pipe, with the
execute-without-asking configuration on, the stdin-read event of the
trace is neither a command run nor the shell prompt. -/
theorem C1_pipe_skips_shell_machine_witness :
    (Event.readStdin "list files").isRunCommand = false ∧
      Event.readStdin "list files" ≠ Event.promptChoice shellChoices :=
  C1_pipe_skips_shell_machine c1wArgs
    { completion := "ls", editorText := "", codeOpt := none, shellOpts := [none] }
    { defaultExecute := true } rfl (Event.readStdin "list files") (by decide)

/-- C10: when the editor flag is set and stdin is piped, main fails
with a usage error, and its trace shows that the editor was never
opened, no role resolution ran, and no completion was attempted. -/
theorem C10_editor_with_pipe (a : Args) (inp : Inputs) (cfg : Cfg)
    (hed : a.editor = true) (hs : stdin_passed a = true) :
    ((sgptMain a inp cfg).2).isUsageError = true ∧
    ∀ e ∈ (sgptMain a inp cfg).1,
      e ≠ Event.openEditor ∧ e.isRoleResolution = false ∧
        e.isRemoteCall = false := by
  constructor
  · simp only [sgptMain]
    split_ifs with h1 h2
    · rfl
    · rfl
    all_goals simp [hed, hs] at h2
  · intro e he
    simp only [sgptMain] at he
    split_ifs at he with h1 h2
    · have h3 := readEvs_cases a e he
      subst h3
      exact ⟨fun hq => Event.noConfusion hq, rfl, rfl⟩
    · have h3 := readEvs_cases a e he
      subst h3
      exact ⟨fun hq => Event.noConfusion hq, rfl, rfl⟩
    all_goals simp [hed, hs] at h2

/-- The arguments of the C10 witness: the editor flag set and stdin
supplied via a pipe. -/
def c10Args : Args :=
  { prompt := none, shell := false, describe_shell := false, code := false,
    editor := true, repl := false, print_chat := false, delete_chat := false,
    chat_id := "temp", role := none, stdinTTY := false, stdinText := "data" }

/-- C10 witness: editor flag with piped stdin is a usage error. -/
theorem C10_editor_with_pipe_witness :
    ((sgptMain c10Args
      { completion := "", editorText := "", codeOpt := none, shellOpts := [] }
      { defaultExecute := false }).2).isUsageError = true :=
  (C10_editor_with_pipe c10Args
    { completion := "", editorText := "", codeOpt := none, shellOpts := [] }
    { defaultExecute := false } rfl rfl).1

/-- C9: with piped stdin, every completion-handling call in the trace
receives exactly the piped text, then two newline characters, then the
CLI prompt argument (the empty string when absent); the REPL handler,
by contrast, receives the unfolded CLI prompt — piped stdin is never
folded into the prompt in REPL mode. -/
theorem C9_stdin_folding (a : Args) (inp : Inputs) (cfg : Cfg)
    (hs : stdin_passed a = true) :
    (∀ id p, Event.chatHandle id p ∈ (sgptMain a inp cfg).1 →
      p = a.stdinText ++ "\n\n" ++ pyOrEmpty a.prompt) ∧
    (∀ id p, Event.replHandle id p ∈ (sgptMain a inp cfg).1 → p = a.prompt) := by
  constructor
  · intro id p hm
    simp only [sgptMain] at hm
    split_ifs at hm with h1 h2 h3 h4 h5 h6 h7
    · exact (remote_not_in_preEvs a _ (readEvs_subset_preEvs a _ hm) rfl).elim
    · exact (remote_not_in_preEvs a _ (readEvs_subset_preEvs a _ hm) rfl).elim
    · rcases List.mem_append.mp hm with hx | hx
      · exact (remote_not_in_preEvs a _ hx rfl).elim
      · simp at hx
    · rcases List.mem_append.mp hm with hx | hx
      · exact (remote_not_in_preEvs a _ hx rfl).elim
      · simp at hx
    · rcases List.mem_append.mp hm with hx | hx
      · exact (remote_not_in_preEvs a _ hx rfl).elim
      · simp at hx
    · exact (remote_not_in_preEvs a _ hm rfl).elim
    · rcases afterCompletion_pipe_events a inp cfg _ hs _ hm with hx | hx
      · rcases List.mem_append.mp hx with hy | hy
        · exact (remote_not_in_preEvs a _ hy rfl).elim
        · simp at hy
          obtain ⟨hid, hp⟩ := hy
          subst hp
          have hed : a.editor = false := by
            rw [hs] at h2
            simpa using h2
          have hrep : a.repl = false := by simpa using h3
          simp [prompt1, foldStdin, hed, hrep, hs, pyOrEmpty]
      · exact (remote_not_in_codeMachine _ _ _ hx rfl).elim
    · rcases afterCompletion_pipe_events a inp cfg _ hs _ hm with hx | hx
      · exact (remote_not_in_preEvs a _ hx rfl).elim
      · exact (remote_not_in_codeMachine _ _ _ hx rfl).elim
  · intro id p hm
    simp only [sgptMain] at hm
    split_ifs at hm with h1 h2 h3 h4 h5 h6 h7
    · exact (remote_not_in_preEvs a _ (readEvs_subset_preEvs a _ hm) rfl).elim
    · exact (remote_not_in_preEvs a _ (readEvs_subset_preEvs a _ hm) rfl).elim
    · rcases List.mem_append.mp hm with hx | hx
      · exact (remote_not_in_preEvs a _ hx rfl).elim
      · simp at hx
        obtain ⟨hid, hp⟩ := hx
        subst hp
        have hed : a.editor = false := by
          rw [hs] at h2
          simpa using h2
        simp [prompt1, foldStdin, hed, h3, hs]
    · rcases List.mem_append.mp hm with hx | hx
      · exact (remote_not_in_preEvs a _ hx rfl).elim
      · simp at hx
    · rcases List.mem_append.mp hm with hx | hx
      · exact (remote_not_in_preEvs a _ hx rfl).elim
      · simp at hx
    · exact (remote_not_in_preEvs a _ hm rfl).elim
    · rcases afterCompletion_pipe_events a inp cfg _ hs _ hm with hx | hx
      · rcases List.mem_append.mp hx with hy | hy
        · exact (remote_not_in_preEvs a _ hy rfl).elim
        · simp at hy
      · exact (remote_not_in_codeMachine _ _ _ hx rfl).elim
    · rcases afterCompletion_pipe_events a inp cfg _ hs _ hm with hx | hx
      · exact (remote_not_in_preEvs a _ hx rfl).elim
      · exact (remote_not_in_codeMachine _ _ _ hx rfl).elim

/-- The arguments of the C9 witness: piped stdin with a CLI prompt
argument alongside. -/
def c9Args : Args :=
  { prompt := some "explain", shell := false, describe_shell := false,
    code := false, editor := false, repl := false, print_chat := false,
    delete_chat := false, chat_id := "temp", role := none, stdinTTY := false,
    stdinText := "some piped text" }

/-- C9 witness: in a concrete piped invocation, the completion call of
the trace received the folded prompt: piped text, two newlines, CLI
argument. -/
theorem C9_stdin_folding_witness :
    "some piped text\n\nexplain" =
      "some piped text" ++ "\n\n" ++ pyOrEmpty (some "explain") :=
  (C9_stdin_folding c9Args
    { completion := "ok", editorText := "", codeOpt := none, shellOpts := [] }
    { defaultExecute := false } rfl).1 "temp" "some piped text\n\nexplain" (by decide)
